import Mathlib

/-!
# Verification of the logger configuration subsystem and health endpoint

Shallow embedding of `src/logger.ts`, `src/logger-validation.ts` and
`app/api/health/route.ts` from the `agentic-nextjs-ts-starter` repository.

Conventions used throughout:
* JavaScript strings are modelled by Lean `String` (character level; the
  UTF-16 code-unit vs codepoint distinction does not matter for the inputs
  considered here).
* `process.env.X` is `Option String`; JS truthiness of strings (`""` is
  falsy) is modelled by `jsOr`.
* JS numbers appearing in this module are integers or `NaN`; they are
  modelled by `JsNumber := Option Int` with `none` playing the role of `NaN`.
* Functions that `throw` are modelled with `Except`; functions writing
  warnings/diagnostics to `stderr` / the fallback logger additionally return
  a list of events (`FEvent`), which also records which validations ran and
  whether `mkdirSync` was attempted.
-/

namespace Starter

/-- JS `a || b` for an optional environment string: `undefined` and the empty
string (both falsy) fall through to the default. -/
def jsOr (o : Option String) (d : String) : String :=
  match o with
  | none => d
  | some s => if s = "" then d else s

/-- JS `NaN`-capable integer: `none` models `NaN`. -/
abbrev JsNumber := Option Int

/-- Boolean list-prefix test (used to model JS `String.prototype.startsWith`). -/
def listPrefix : List Char → List Char → Bool
  | [], _ => true
  | _ :: _, [] => false
  | a :: as, b :: bs => a = b && listPrefix as bs

/-- Boolean list-infix test (used to model JS `String.prototype.includes`). -/
def listInfix (n : List Char) : List Char → Bool
  | [] => listPrefix n []
  | b :: bs => listPrefix n (b :: bs) || listInfix n bs

/-- JS `s.startsWith(p)`. -/
def strStartsWith (p s : String) : Bool := listPrefix p.data s.data

/-- JS `s.includes(n)`. -/
def strIncludes (n s : String) : Bool := listInfix n.data s.data

/-- Split a character list on a separator character.  Models
`String.prototype.split(sep)` / Node's path-segment splitting.  The result is
always non-empty. -/
def splitOnChar (sep : Char) (cs : List Char) : List (List Char) :=
  cs.foldr
    (fun c acc =>
      if c = sep then [] :: acc
      else
        match acc with
        | g :: gs => (c :: g) :: gs
        | [] => [[c]])
    [[]]

/-- Join character-list segments with a separator character (Node
`Array.prototype.join('/')` over path segments). -/
def joinWithChar (sep : Char) : List (List Char) → List Char
  | [] => []
  | [g] => g
  | g :: gs => g ++ sep :: joinWithChar sep gs

/-! ## `node:path` (POSIX) — `normalize` and `isAbsolute`

Modelled from the Node.js `path.posix` implementation: `normalize` resolves
`.` and `..` segments (with `..` preserved at the front of relative paths),
collapses repeated separators, preserves a trailing separator, and keeps a
leading separator for absolute paths. -/

/-- One step of Node's `normalizeString` segment resolution. -/
def normStep (allowAboveRoot : Bool) (acc : List (List Char)) (seg : List Char) :
    List (List Char) :=
  if seg = [] ∨ seg = ['.'] then acc
  else if seg = ['.', '.'] then
    match acc with
    | t :: rest => if t = ['.', '.'] then seg :: acc else rest
    | [] => if allowAboveRoot then [seg] else []
  else seg :: acc

/-- Resolve `.`/`..` in a segment list (segments are reversed internally). -/
def normalizeSegs (allowAboveRoot : Bool) (segs : List (List Char)) :
    List (List Char) :=
  (segs.foldl (normStep allowAboveRoot) []).reverse

/-- Node `path.posix.normalize`. -/
def normalize (path : String) : String :=
  if path = "" then "."
  else
    let isAbs := listPrefix ['/'] path.data
    let trailing := path.data.getLast? = some '/'
    let core := joinWithChar '/' (normalizeSegs (!isAbs) (splitOnChar '/' path.data))
    if core = [] then
      if isAbs then "/" else if trailing then "./" else "."
    else
      let core := if trailing then core ++ ['/'] else core
      if isAbs then ⟨'/' :: core⟩ else ⟨core⟩

/-- Node `path.posix.isAbsolute`. -/
def isAbsolute (path : String) : Bool := listPrefix ['/'] path.data

/-! ## `logger-validation.ts` -/

/-- The `MAX_PATH_LENGTH` from `logger-validation.ts`. -/
def MAX_PATH_LENGTH : Nat := 4096

/-- Error kinds thrown by `validateLogPath` (all of spec kind `InvalidPath`);
one constructor per `throw new Error(...)` site in the source. -/
inductive PathError where
  | emptyPath
  | parentDirRef
  | restrictedDir
  | nullByte
  | tooLong
  deriving DecidableEq, Repr

/-- The `restrictedPaths` array from `validateLogPath`. -/
def restrictedPaths : List String :=
  ["/etc", "/usr", "/bin", "/sbin", "/boot", "/dev", "/proc", "/sys", "/root",
   "C:\\Windows", "C:\\Program Files"]

/-- A string containing only the NUL character (JS `'\0'`). -/
def nullStr : String := ⟨[Char.ofNat 0]⟩

/-- The `validateLogPath` from `logger-validation.ts`: rejects empty paths, paths
containing `..`, paths whose (absolutised) normalized form starts with a
restricted system directory, paths containing a null byte, and over-long
paths. -/
def validateLogPath (path : String) : Except PathError Unit :=
  if path = "" then .error .emptyPath
  else
    let normalizedPath := normalize path
    if strIncludes ".." path then .error .parentDirRef
    else
      let absolutePath :=
        if isAbsolute normalizedPath then normalizedPath
        else normalize ("/" ++ normalizedPath)
      if restrictedPaths.any (fun r => strStartsWith (normalize r) absolutePath) then
        .error .restrictedDir
      else if strIncludes nullStr path then .error .nullByte
      else if path.length > MAX_PATH_LENGTH then .error .tooLong
      else .ok ()

/-! ## `node:net.isIP`

Modelled from Node's `net.isIPv4` / `net.isIPv6`: a strict dotted-quad for
IPv4 (no leading zeros, octets 0–255) and the usual IPv6 grammar (groups of
1–4 hex digits, at most one `::`, optional embedded IPv4 tail counting as two
groups). -/

/-- One decimal octet of an IPv4 literal: 1–3 digits, no leading zero except
`"0"` itself, value at most 255. -/
def isDecOctet (cs : List Char) : Bool :=
  cs ≠ [] && cs.length ≤ 3 && cs.all Char.isDigit &&
    (cs.length = 1 || cs.head? ≠ some '0') &&
    cs.foldl (fun acc c => acc * 10 + (c.toNat - 48)) 0 ≤ 255

/-- IPv4 dotted-quad literal. -/
def isIPv4 (cs : List Char) : Bool :=
  let parts := splitOnChar '.' cs
  parts.length = 4 && parts.all isDecOctet

/-- Hexadecimal digit. -/
def isHexDigit (c : Char) : Bool :=
  c.isDigit || ('a' ≤ c && c ≤ 'f') || ('A' ≤ c && c ≤ 'F')

/-- One IPv6 group: 1–4 hex digits. -/
def isH16 (cs : List Char) : Bool :=
  cs ≠ [] && cs.length ≤ 4 && cs.all isHexDigit

/-- Split at the first `::`, returning the parts before and after it. -/
def findDoubleColon : List Char → Option (List Char × List Char)
  | ':' :: ':' :: rest => some ([], rest)
  | c :: rest => (findDoubleColon rest).map (fun p => (c :: p.1, p.2))
  | [] => none

/-- Whether a `::` occurs in the list. -/
def hasDoubleColon (cs : List Char) : Bool := (findDoubleColon cs).isSome

/-- IPv6 literal. -/
def isIPv6 (cs : List Char) : Bool :=
  match findDoubleColon cs with
  | none =>
    let gs := splitOnChar ':' cs
    (gs.length = 8 && gs.all isH16) ||
      (gs.length = 7 && (gs.take 6).all isH16 && isIPv4 (gs.getLastD []))
  | some (l, r) =>
    if hasDoubleColon r then false
    else
      let ls := if l = [] then [] else splitOnChar ':' l
      let rs := if r = [] then [] else splitOnChar ':' r
      let rv4 := rs ≠ [] && isIPv4 (rs.getLastD [])
      let rGroups := if rv4 then rs.dropLast else rs
      ls.all isH16 && rGroups.all isH16 &&
        ls.length + rGroups.length + (if rv4 then 2 else 0) ≤ 7

/-- Node `net.isIP`: 4 for IPv4 literals, 6 for IPv6 literals, 0 otherwise. -/
def isIP (s : String) : Nat :=
  if isIPv4 s.data then 4 else if isIPv6 s.data then 6 else 0

/-! ## `validateSyslogHost`, `validateSyslogPort`, `validateFileMode` -/

/-- The `MAX_HOSTNAME_LENGTH` from `logger-validation.ts`. -/
def MAX_HOSTNAME_LENGTH : Nat := 255

/-- Error kinds thrown by `validateSyslogHost` (spec kind `InvalidHost`). -/
inductive HostError where
  | emptyHost
  | tooLong
  | badFormat
  deriving DecidableEq, Repr

/-- Side effects observable from the logger subsystem: which validations ran,
stderr warnings, fallback-logger diagnostics, and directory creation. -/
inductive FEvent where
  | pathValidationRun (path : String)
  | hostPortValidationRun (host : String)
  | stderrWarn
  | diagInvalid (context : String)
  | diagFallback
  | mkdirAttempt
  | diagDirFailed
  deriving DecidableEq, Repr

/-- Alphanumeric character (case-insensitive), as in the RFC 1123 regex. -/
def isAlnum (c : Char) : Bool := c.isDigit || c.isAlpha

/-- One RFC 1123 hostname label: 1–63 alphanumerics/hyphens, not starting or
ending with a hyphen (the `[a-z0-9](?:[a-z0-9-]{0,61}[a-z0-9])?` regex). -/
def isHostLabel (cs : List Char) : Bool :=
  cs ≠ [] && cs.length ≤ 63 &&
    cs.all (fun c => isAlnum c || c = '-') &&
    (cs.head?.elim false isAlnum) && (cs.getLast?.elim false isAlnum)

/-- The RFC 1123 hostname regex from `validateSyslogHost`. -/
def hostnameOk (s : String) : Bool :=
  (splitOnChar '.' s.data).all isHostLabel

/-- The `localhostVariants` array from `validateSyslogHost`. -/
def localhostVariants : List String := ["localhost", "127.0.0.1", "::1", "0.0.0.0"]

/-- JS `s.toLowerCase()` (ASCII range, which is all this module compares). -/
def strToLower (s : String) : String := ⟨s.data.map Char.toLower⟩

/-- The `validateSyslogHost` from `logger-validation.ts`: IP literals are accepted
before the length and hostname-format checks; the localhost-in-production case
only warns.  `nodeEnv` is the raw `process.env.NODE_ENV` value. -/
def validateSyslogHost (nodeEnv : Option String) (host : String) :
    Except HostError Unit × List FEvent :=
  if host = "" then (.error .emptyHost, [])
  else if isIP host ≠ 0 then (.ok (), [])
  else if host.length > MAX_HOSTNAME_LENGTH then (.error .tooLong, [])
  else if hostnameOk host then
    if nodeEnv = some "production" && localhostVariants.contains (strToLower host) then
      (.ok (), [.stderrWarn])
    else (.ok (), [])
  else (.error .badFormat, [])

/-- Error kinds thrown by `validateSyslogPort` (spec kind `InvalidPort`). -/
inductive PortError where
  | notInteger
  | outOfRange
  deriving DecidableEq, Repr

/-- The `MIN_PORT_NUMBER` from `logger-validation.ts`. -/
def MIN_PORT_NUMBER : Int := 1
/-- The `MAX_PORT_NUMBER` from `logger-validation.ts`. -/
def MAX_PORT_NUMBER : Int := 65535
/-- The `PRIVILEGED_PORT_THRESHOLD` from `logger-validation.ts`. -/
def PRIVILEGED_PORT_THRESHOLD : Int := 1024

/-- The `validateSyslogPort` from `logger-validation.ts`.  The argument is the
already-parsed `LOG_SYSLOG_PORT` (`none` = `undefined`, `some none` = `NaN`). -/
def validateSyslogPort (nodeEnv : Option String) (port : Option JsNumber) :
    Except PortError Unit × List FEvent :=
  match port with
  | none => (.ok (), [])
  | some none => (.error .notInteger, [])
  | some (some p) =>
    if p < MIN_PORT_NUMBER ∨ p > MAX_PORT_NUMBER then (.error .outOfRange, [])
    else if p < PRIVILEGED_PORT_THRESHOLD ∧ nodeEnv = some "production" then
      (.ok (), [.stderrWarn])
    else (.ok (), [])

/-- The `DEFAULT_FILE_MODE` (`0o640`) from `logger-validation.ts`. -/
def DEFAULT_FILE_MODE : Int := 0o640
/-- The `MAX_FILE_MODE` (`0o777`) from `logger-validation.ts`. -/
def MAX_FILE_MODE : Int := 0o777

/-- JS `Number.parseInt(s, 8)`: skip leading whitespace, optional sign, then
a greedy run of octal digits; `none` models `NaN` (no digits). -/
def parseIntOctal (s : String) : JsNumber :=
  let cs := s.data.dropWhile Char.isWhitespace
  let (sign, cs) : Int × List Char :=
    match cs with
    | '-' :: rest => (-1, rest)
    | '+' :: rest => (1, rest)
    | _ => (1, cs)
  let digits := cs.takeWhile (fun c => '0' ≤ c && c ≤ '7')
  if digits = [] then none
  else some (sign * (digits.foldl (fun acc c => acc * 8 + (c.toNat - 48 : Int)) 0))

/-- JS `Number.parseInt(s, 10)` (same shape, decimal digits). -/
def parseIntDec (s : String) : JsNumber :=
  let cs := s.data.dropWhile Char.isWhitespace
  let (sign, cs) : Int × List Char :=
    match cs with
    | '-' :: rest => (-1, rest)
    | '+' :: rest => (1, rest)
    | _ => (1, cs)
  let digits := cs.takeWhile Char.isDigit
  if digits = [] then none
  else some (sign * (digits.foldl (fun acc c => acc * 10 + (c.toNat - 48 : Int)) 0))

/-- Input to `validateFileMode` (`number | string | undefined`; JS numbers
reaching this function in the repository are integers). -/
inductive FileModeInput where
  | undef
  | num (n : Int)
  | str (s : String)
  deriving DecidableEq, Repr

/-- Result of `validateFileMode`: the resolved mode plus whether the
invalid-mode warning and the permissions-too-open warning were written. -/
structure FileModeResult where
  mode : Int
  warnedInvalid : Bool
  warnedOpen : Bool
  deriving DecidableEq, Repr

/-- The tail of `validateFileMode` after the `undefined` early return:
`numericMode` is the parsed mode (`none` = `NaN`); out-of-range and `NaN`
fall back to the default with a warning, otherwise warn when the
`OTHER_USERS_PERMISSION_MASK` (`0o077`) bits are set. -/
def resolveNumericMode : JsNumber → FileModeResult
  | none => ⟨DEFAULT_FILE_MODE, true, false⟩
  | some n =>
    if n < 0 ∨ n > MAX_FILE_MODE then ⟨DEFAULT_FILE_MODE, true, false⟩
    else ⟨n, false, decide ((n.toNat &&& 0o077) ≠ 0)⟩

/-- The `validateFileMode` from `logger-validation.ts`. -/
def validateFileMode (mode : FileModeInput) : FileModeResult :=
  match mode with
  | .undef => ⟨DEFAULT_FILE_MODE, false, false⟩
  | .num n => resolveNumericMode (some n)
  | .str s => resolveNumericMode (parseIntOctal s)

/-! ## `logger.ts` — environment and configuration factory -/

/-- The raw process environment, as read by `logger.ts` (`process.env.X`,
each `Option String`). -/
structure Env where
  NODE_ENV : Option String := none
  LOG_LEVEL : Option String := none
  LOG_OUTPUT : Option String := none
  LOG_FILE_PATH : Option String := none
  LOG_FILE_MAX_SIZE : Option String := none
  LOG_FILE_MAX_FILES : Option String := none
  LOG_SYSLOG_HOST : Option String := none
  LOG_SYSLOG_PORT : Option String := none
  LOG_SYSLOG_PROTOCOL : Option String := none
  APP_NAME : Option String := none
  CORRELATION_ID : Option String := none
  LOG_FILE_PERMISSIONS : Option String := none
  deriving DecidableEq, Repr

/-- Result of `getEnvConfig` in `logger.ts` (defaults applied, ports and file
counts parsed; `x ? parseInt(x) : undefined` uses JS truthiness). -/
structure EnvConfig where
  NODE_ENV : String
  LOG_LEVEL : Option String
  LOG_OUTPUT : Option String
  LOG_FILE_PATH : Option String
  LOG_FILE_MAX_SIZE : Option String
  LOG_FILE_MAX_FILES : Option JsNumber
  LOG_SYSLOG_HOST : Option String
  LOG_SYSLOG_PORT : Option JsNumber
  LOG_SYSLOG_PROTOCOL : Option String
  APP_NAME : String
  deriving DecidableEq, Repr

/-- The `x ? Number.parseInt(x, 10) : undefined` for an env string. -/
def parsedEnvInt (o : Option String) : Option JsNumber :=
  match o with
  | none => none
  | some s => if s = "" then none else some (parseIntDec s)

/-- The `getEnvConfig` from `logger.ts`. -/
def getEnvConfig (env : Env) : EnvConfig where
  NODE_ENV := jsOr env.NODE_ENV "development"
  LOG_LEVEL := env.LOG_LEVEL
  LOG_OUTPUT := env.LOG_OUTPUT
  LOG_FILE_PATH := env.LOG_FILE_PATH
  LOG_FILE_MAX_SIZE := env.LOG_FILE_MAX_SIZE
  LOG_FILE_MAX_FILES := parsedEnvInt env.LOG_FILE_MAX_FILES
  LOG_SYSLOG_HOST := env.LOG_SYSLOG_HOST
  LOG_SYSLOG_PORT := parsedEnvInt env.LOG_SYSLOG_PORT
  LOG_SYSLOG_PROTOCOL := env.LOG_SYSLOG_PROTOCOL
  APP_NAME := jsOr env.APP_NAME "agentic-node-ts-starter"

/-- The `DEFAULT_LOG_FILE_PATH` from `logger.ts`. -/
def DEFAULT_LOG_FILE_PATH : String := "./logs/app.log"

/-- The `getEffectiveLogOutput` from `logger.ts`. -/
def getEffectiveLogOutput (env : Env) : String :=
  jsOr (getEnvConfig env).LOG_OUTPUT "stdout"

/-- Digit run to a natural number. -/
def digitsToNat (cs : List Char) : Nat :=
  cs.foldl (fun a c => a * 10 + (c.toNat - 48)) 0

/-- The `multipliers` table from `parseSizeToBytes` (`' '` = no unit). -/
def sizeMultiplier : Char → Nat
  | 'K' => 1024
  | 'M' => 1024 * 1024
  | 'G' => 1024 * 1024 * 1024
  | 'T' => 1024 * 1024 * 1024 * 1024
  | _ => 1

/-- Match against the `parseSizeToBytes` regex
`^(\d+(?:\.\d+)?)\s*([KMGT]?)B?$/i`, returning integer digits, fractional
digits, and the upper-cased unit (`' '` when absent). -/
def parseSizeMatch (cs : List Char) : Option (List Char × List Char × Char) :=
  let ip := cs.takeWhile Char.isDigit
  let rest := cs.dropWhile Char.isDigit
  if ip = [] then none
  else
    let fr : List Char × List Char :=
      match rest with
      | '.' :: r2 =>
        let ds := r2.takeWhile Char.isDigit
        if ds = [] then ([], rest) else (ds, r2.dropWhile Char.isDigit)
      | _ => ([], rest)
    let fp := fr.1
    let rest := fr.2.dropWhile Char.isWhitespace
    let ur : Char × List Char :=
      match rest with
      | c :: r2 =>
        if c ∈ (['K', 'M', 'G', 'T', 'k', 'm', 'g', 't'] : List Char) then
          (c.toUpper, r2)
        else (' ', rest)
      | [] => (' ', [])
    let rest :=
      match ur.2 with
      | 'B' :: r2 => r2
      | 'b' :: r2 => r2
      | r2 => r2
    if rest = [] then some (ip, fp, ur.1) else none

/-- The `parseSizeToBytes` from `logger.ts`: `Math.floor(value * multiplier)`,
computed exactly (`(I*M*10^k + F*M) / 10^k` in integers equals the floor of
`(I + F/10^k) * M`). -/
def parseSizeToBytes (size : Option String) : Option Nat :=
  match size with
  | none => none
  | some s =>
    if s = "" then none
    else
      match parseSizeMatch s.data with
      | none => none
      | some (ip, fp, unit) =>
        let mult := sizeMultiplier unit
        let k := fp.length
        some ((digitsToNat ip * mult * 10 ^ k + digitsToNat fp * mult) / 10 ^ k)

/-- Transport descriptors attached to a configuration (`transport:` field). -/
inductive Transport where
  | pinoRoll (file : String) (size : String) (limitCount : Option JsNumber)
  | pinoFile (destination : String) (mkdir : Bool)
  | pinoSyslog (host : String) (port : Int) (protocol : String) (app : String)
  | pinoPretty (colorize : Bool) (ignore : String) (translateTime : String)
      (singleLine : Bool)
  deriving DecidableEq, Repr

/-- JS `x || d` for an optional possibly-`NaN` number (`0` and `NaN` falsy). -/
def jsNumOr (o : Option JsNumber) (d : Int) : Int :=
  match o with
  | some (some p) => if p = 0 then d else p
  | _ => d

/-- The `getFileTransportConfig` from `logger.ts`. -/
def getFileTransportConfig (env : Env) : Transport :=
  let ec := getEnvConfig env
  if (parseSizeToBytes ec.LOG_FILE_MAX_SIZE).getD 0 ≠ 0 then
    .pinoRoll (jsOr ec.LOG_FILE_PATH DEFAULT_LOG_FILE_PATH)
      (jsOr ec.LOG_FILE_MAX_SIZE "10M") ec.LOG_FILE_MAX_FILES
  else
    .pinoFile (jsOr ec.LOG_FILE_PATH DEFAULT_LOG_FILE_PATH) true

/-- The `getSyslogTransportConfig` from `logger.ts`. -/
def getSyslogTransportConfig (env : Env) : Transport :=
  let ec := getEnvConfig env
  .pinoSyslog (jsOr ec.LOG_SYSLOG_HOST "localhost")
    (jsNumOr ec.LOG_SYSLOG_PORT 514)
    (jsOr ec.LOG_SYSLOG_PROTOCOL "udp")
    ec.APP_NAME

/-- The `REDACTED_PATHS` from `logger.ts`. -/
def REDACTED_PATHS : List String :=
  ["password", "token", "secret", "authorization", "api_key", "apiKey",
   "*.password", "*.token", "*.secret", "*.authorization", "*.api_key",
   "*.apiKey"]

/-- Timestamp format (`pino.stdTimeFunctions`). -/
inductive TsFmt where
  | isoTime
  | epochTime
  deriving DecidableEq, Repr

/-- A pino `LoggerOptions` value as built by this module: severity level,
timestamp function, redaction rule set, the production-only
correlation-id mixin and level formatter, and the optional transport. -/
structure LoggerOptions where
  level : String
  timestamp : TsFmt
  redactPaths : List String
  redactRemove : Bool
  hasCorrelationMixin : Bool
  hasLevelFormatter : Bool
  transport : Option Transport
  deriving DecidableEq, Repr

/-- The `createBaseConfig` from `logger.ts`. -/
def createBaseConfig (logLevel : String) : LoggerOptions where
  level := logLevel
  timestamp := .isoTime
  redactPaths := REDACTED_PATHS
  redactRemove := true
  hasCorrelationMixin := false
  hasLevelFormatter := false
  transport := none

/-- The `createProductionConfig` from `logger.ts`. -/
def createProductionConfig (baseConfig : LoggerOptions) : LoggerOptions :=
  { baseConfig with hasCorrelationMixin := true, hasLevelFormatter := true }

/-- The `createTestConfig` from `logger.ts` (`level: process.env.LOG_LEVEL ||
'silent'`). -/
def createTestConfig (env : Env) (baseConfig : LoggerOptions) : LoggerOptions :=
  { baseConfig with level := jsOr env.LOG_LEVEL "silent" }

/-- The `createNullConfig` from `logger.ts`. -/
def createNullConfig (baseConfig : LoggerOptions) : LoggerOptions :=
  { baseConfig with level := "silent" }

/-- The `ensureLogDirectory` from `logger.ts`: validates the file-permission env
var (warnings only) then attempts `mkdirSync`; `mkdirOk` is whether the
file system lets the directory be created. -/
def ensureLogDirectory (env : Env) (mkdirOk : Bool) : Bool × List FEvent :=
  let fmr := validateFileMode
    (match env.LOG_FILE_PERMISSIONS with
     | none => .undef
     | some s => .str s)
  let wevs := (if fmr.warnedInvalid then [FEvent.stderrWarn] else []) ++
    (if fmr.warnedOpen then [FEvent.stderrWarn] else [])
  if mkdirOk then (true, wevs ++ [.mkdirAttempt])
  else (false, wevs ++ [.mkdirAttempt, .diagDirFailed, .diagFallback])

/-- The `createFileConfig` from `logger.ts`: validate the path, ensure the log
directory, fall back to the plain console configuration on failure. -/
def createFileConfig (env : Env) (baseConfig productionConfig : LoggerOptions)
    (isProduction mkdirOk : Bool) : LoggerOptions × List FEvent :=
  let logPath := jsOr (getEnvConfig env).LOG_FILE_PATH DEFAULT_LOG_FILE_PATH
  match validateLogPath logPath with
  | .error _ =>
    ((if isProduction then productionConfig else baseConfig),
     [.pathValidationRun logPath, .diagInvalid "log file path", .diagFallback])
  | .ok _ =>
    let r := ensureLogDirectory env mkdirOk
    if r.1 then
      ({ (if isProduction then productionConfig else baseConfig) with
          transport := some (getFileTransportConfig env) },
       .pathValidationRun logPath :: r.2)
    else
      ((if isProduction then productionConfig else baseConfig),
       .pathValidationRun logPath :: r.2)

/-- The `createSyslogConfig` from `logger.ts`: validate host then port, fall back
to the plain console configuration on failure; on success switch timestamps
to epoch representation and attach the syslog transport. -/
def createSyslogConfig (env : Env) (baseConfig productionConfig : LoggerOptions)
    (isProduction : Bool) : LoggerOptions × List FEvent :=
  let ec := getEnvConfig env
  let syslogHost := jsOr ec.LOG_SYSLOG_HOST "localhost"
  let hr := validateSyslogHost env.NODE_ENV syslogHost
  match hr.1 with
  | .error _ =>
    ((if isProduction then productionConfig else baseConfig),
     .hostPortValidationRun syslogHost ::
       hr.2 ++ [.diagInvalid "syslog configuration", .diagFallback])
  | .ok _ =>
    let pr := validateSyslogPort env.NODE_ENV ec.LOG_SYSLOG_PORT
    match pr.1 with
    | .error _ =>
      ((if isProduction then productionConfig else baseConfig),
       .hostPortValidationRun syslogHost ::
         hr.2 ++ pr.2 ++ [.diagInvalid "syslog configuration", .diagFallback])
    | .ok _ =>
      let syslogBaseConfig := { baseConfig with timestamp := TsFmt.epochTime }
      let syslogProductionConfig :=
        { productionConfig with timestamp := TsFmt.epochTime }
      ({ (if isProduction then syslogProductionConfig else syslogBaseConfig) with
          transport := some (getSyslogTransportConfig env) },
       .hostPortValidationRun syslogHost :: hr.2 ++ pr.2)

/-- The `createStdoutConfig` from `logger.ts`: pretty-printing in development
(outside tests), production config in production, base config otherwise. -/
def createStdoutConfig (baseConfig productionConfig : LoggerOptions)
    (isDevelopment isProduction isTest : Bool) : LoggerOptions :=
  if isDevelopment && !isTest then
    { baseConfig with
        transport := some (.pinoPretty true "pid,hostname" "HH:MM:ss.l" false) }
  else if isProduction then productionConfig
  else baseConfig

/-- The `getLoggerConfig` from `logger.ts`.  `outputMode` is the optional explicit
argument; `mkdirOk` abstracts whether `mkdirSync` succeeds.  Also returns the
observable side effects (diagnostics, warnings, validations run). -/
def getLoggerConfig (env : Env) (outputMode : Option String) (mkdirOk : Bool) :
    LoggerOptions × List FEvent :=
  let ec := getEnvConfig env
  let isProduction := ec.NODE_ENV = "production"
  let isDevelopment := ec.NODE_ENV = "development"
  let isTest := ec.NODE_ENV = "test"
  let logLevel := jsOr ec.LOG_LEVEL (if isProduction then "info" else "debug")
  let effectiveOutput := jsOr outputMode (getEffectiveLogOutput env)
  let baseConfig := createBaseConfig logLevel
  let productionConfig := createProductionConfig baseConfig
  if isTest then (createTestConfig env baseConfig, [])
  else if effectiveOutput = "null" then (createNullConfig baseConfig, [])
  else if effectiveOutput = "file" then
    createFileConfig env baseConfig productionConfig isProduction mkdirOk
  else if effectiveOutput = "syslog" then
    createSyslogConfig env baseConfig productionConfig isProduction
  else if effectiveOutput = "stderr" then
    ((if isProduction then productionConfig else baseConfig), [])
  else
    (createStdoutConfig baseConfig productionConfig isDevelopment isProduction
      isTest, [])

/-! ## Redaction semantics (pino `redact` / fast-redact)

The configuration's `redact: { paths: REDACTED_PATHS, remove: true }` is
interpreted by pino via fast-redact: a path such as `password` removes the
top-level field of that name, and `*.password` removes the field `password`
one level down (`*` matches exactly one level).  Log records are modelled as
JSON-like trees; an object is a spine of `fld` nodes so that all recursion is
structural. -/

/-- A JSON-like logged value: an atom, or an object given as a spine of
fields (`fld key value rest`). -/
inductive JsonVal where
  | atom (s : String)
  | onil
  | fld (key : String) (value : JsonVal) (rest : JsonVal)
  deriving DecidableEq, Repr

/-- The `REDACTED_PATHS` entries split on `.` (fast-redact path segments). -/
def REDACT_PATTERNS : List (List String) :=
  REDACTED_PATHS.map (fun s => (splitOnChar '.' s.data).map (fun cs => (⟨cs⟩ : String)))

/-- One fast-redact segment match: `*` is a single-level wildcard. -/
def segMatches (pat seg : String) : Bool := pat = "*" || pat = seg

/-- Whole-path match against one pattern (same length, segmentwise). -/
def patMatches : List String → List String → Bool
  | [], [] => true
  | p :: ps, s :: ss => segMatches p s && patMatches ps ss
  | _, _ => false

/-- Whether any configured redaction path matches the given key path. -/
def matchedAny (path : List String) : Bool :=
  REDACT_PATTERNS.any (fun pat => patMatches pat path)

/-- Apply the redaction rule set with `remove: true`: every field whose full
key path matches a configured pattern is removed from the record. -/
def applyRedact (path : List String) : JsonVal → JsonVal
  | .atom s => .atom s
  | .onil => .onil
  | .fld k v rest =>
    if matchedAny (path ++ [k]) then applyRedact path rest
    else .fld k (applyRedact (path ++ [k]) v) (applyRedact path rest)

/-- Field lookup in an object spine. -/
def lookupField (k : String) : JsonVal → Option JsonVal
  | .fld k' v rest => if k' = k then some v else lookupField k rest
  | _ => none

/-- Lookup of a nested key path. -/
def lookupPath : List String → JsonVal → Option JsonVal
  | [], v => some v
  | k :: rest, v =>
    match lookupField k v with
    | some w => lookupPath rest w
    | none => none

/-! ## `logger.ts` — runtime output switcher

Module state: `currentOutputMode`, `currentFileStream` (a tracked stream id),
and the behaviour currently copied onto the exported `logger` handle.
`switchLogOutput` is a state transition that also emits the observable events
(debug note, stream closes, logger construction, the switch info record). -/

/-- The module-level mutable state of `logger.ts`. -/
structure SwitcherState where
  currentOutputMode : Option String
  currentFileStream : Option Nat
  activeConfig : LoggerOptions
  deriving DecidableEq, Repr

/-- Observable events of a `switchLogOutput` call. -/
inductive SwEvent where
  | debugAlready (mode : String)
  | closeStream (id : Nat)
  | builtLogger (mode : String)
  | infoSwitched (previous : Option String) (next : String)
  | factory (e : FEvent)
  deriving DecidableEq, Repr

/-- The `cleanupPreviousOutput` from `logger.ts`: when leaving `'file'` mode with
a tracked stream, close it (once) and clear the reference. -/
def cleanupPreviousOutput (previousMode : Option String)
    (stream : Option Nat) : Option Nat × List SwEvent :=
  if previousMode = some "file" then
    match stream with
    | some id => (none, [.closeStream id])
    | none => (stream, [])
  else (stream, [])

/-- The `switchLogOutput` from `logger.ts`: no-op with a debug note when the mode
is unchanged; otherwise clean up the previous mode, rebuild the configuration
via `getLoggerConfig`, construct a new logger and copy its behaviour onto the
exported handle, then log the switch. -/
def switchLogOutput (env : Env) (mkdirOk : Bool) (s : SwitcherState)
    (outputMode : String) : SwitcherState × List SwEvent :=
  if s.currentOutputMode = some outputMode then
    (s, [.debugAlready outputMode])
  else
    let cu := cleanupPreviousOutput s.currentOutputMode s.currentFileStream
    let cfg := getLoggerConfig env (some outputMode) mkdirOk
    ({ currentOutputMode := some outputMode,
       currentFileStream := cu.1,
       activeConfig := cfg.1 },
     cu.2 ++ cfg.2.map .factory ++
       [.builtLogger outputMode, .infoSwitched s.currentOutputMode outputMode])

/-- The module-initialisation state of `logger.ts` (the IIFE that sets
`currentOutputMode` and builds the first logger; `currentFileStream` starts
as `null`). -/
def initState (env : Env) (mkdirOk : Bool) : SwitcherState where
  currentOutputMode := some (getEffectiveLogOutput env)
  currentFileStream := none
  activeConfig := (getLoggerConfig env none mkdirOk).1

/-- The `getLoggerOutputMode` from `logger.ts`. -/
def getLoggerOutputMode (env : Env) (s : SwitcherState) : String :=
  match s.currentOutputMode with
  | some m => if m = "" then getEffectiveLogOutput env else m
  | none => getEffectiveLogOutput env

/-- Number of stream-close events in a switch event list. -/
def countCloses (evs : List SwEvent) : Nat :=
  evs.countP (fun e => match e with | .closeStream _ => true | _ => false)

/-! ## `app/api/health/route.ts` -/

/-- Calendar components of a `Date`, as rendered by `toISOString`. -/
structure DateParts where
  year : Nat
  month : Nat
  day : Nat
  hour : Nat
  minute : Nat
  second : Nat
  ms : Nat
  deriving DecidableEq, Repr

/-- Two-digit zero-padded decimal rendering (for in-range components). -/
def pad2 (n : Nat) : List Char := [Nat.digitChar (n / 10 % 10), Nat.digitChar (n % 10)]

/-- Three-digit zero-padded decimal rendering. -/
def pad3 (n : Nat) : List Char :=
  [Nat.digitChar (n / 100 % 10), Nat.digitChar (n / 10 % 10), Nat.digitChar (n % 10)]

/-- Four-digit zero-padded decimal rendering. -/
def pad4 (n : Nat) : List Char :=
  [Nat.digitChar (n / 1000 % 10), Nat.digitChar (n / 100 % 10),
   Nat.digitChar (n / 10 % 10), Nat.digitChar (n % 10)]

/-- Model of JS `Date.prototype.toISOString` for in-range components:
`YYYY-MM-DDTHH:mm:ss.sssZ`. -/
def toISOString (d : DateParts) : String :=
  ⟨pad4 d.year ++ '-' :: pad2 d.month ++ '-' :: pad2 d.day ++
    'T' :: pad2 d.hour ++ ':' :: pad2 d.minute ++ ':' :: pad2 d.second ++
    '.' :: pad3 d.ms ++ ['Z']⟩

/-- The ISO-8601 timestamp shape checked by the repository's tests
(`/^\d{4}-\d{2}-\d{2}T\d{2}:\d{2}:\d{2}\.\d{3}Z$/`). -/
def isIso8601 (s : String) : Bool :=
  match s.data with
  | [y1, y2, y3, y4, h1, m1, m2, h2, d1, d2, t, hh1, hh2, c1, mi1, mi2, c2,
     s1, s2, dot, f1, f2, f3, z] =>
    y1.isDigit && y2.isDigit && y3.isDigit && y4.isDigit && h1 = '-' &&
      m1.isDigit && m2.isDigit && h2 = '-' && d1.isDigit && d2.isDigit &&
      t = 'T' && hh1.isDigit && hh2.isDigit && c1 = ':' && mi1.isDigit &&
      mi2.isDigit && c2 = ':' && s1.isDigit && s2.isDigit && dot = '.' &&
      f1.isDigit && f2.isDigit && f3.isDigit && z = 'Z'
  | _ => false

/-- The environment variables read by the health route. -/
structure HealthEnv where
  NEXT_PUBLIC_APP_NAME : Option String := none
  npm_package_version : Option String := none
  NODE_ENV : Option String := none
  deriving DecidableEq, Repr

/-- The JSON body produced by the health route (`uptime` is the fractional
seconds value of `process.uptime()`). -/
structure HealthBody where
  status : String
  timestamp : String
  application : String
  version : String
  uptime : ℚ
  environment : String
  deriving DecidableEq, Repr

/-- A `NextResponse` as observed by the tests: HTTP status, content type,
parsed JSON body. -/
structure HealthResponse where
  httpStatus : Nat
  contentType : String
  body : HealthBody
  deriving DecidableEq, Repr

/-- The `NextResponse.json(body, { status })`: serialises the body as JSON with
content type `application/json`. -/
def nextResponseJson (body : HealthBody) (status : Nat) : HealthResponse :=
  ⟨status, "application/json", body⟩

/-- The `GET` from `app/api/health/route.ts`.  The ambient clock and
`process.uptime()` are explicit inputs; the handler reads nothing else (in
particular, no logger state). -/
def healthGET (env : HealthEnv) (now : DateParts) (uptime : ℚ) : HealthResponse :=
  let appName := jsOr env.NEXT_PUBLIC_APP_NAME "agentic-nextjs-ts-starter"
  nextResponseJson
    { status := "healthy"
      timestamp := toISOString now
      application := appName
      version := jsOr env.npm_package_version "unknown"
      uptime := uptime
      environment := jsOr env.NODE_ENV "development" }
    200

/-! ## Helper definitions for the theorems -/

/-- Boolean error test for `Except`. -/
def isErr : Except ε α → Bool
  | .error _ => true
  | .ok _ => false

/-- The severity level computed by `getLoggerConfig` outside test mode
(`LOG_LEVEL || (isProduction ? 'info' : 'debug')`). -/
def factoryLogLevel (env : Env) : String :=
  jsOr (getEnvConfig env).LOG_LEVEL
    (if (getEnvConfig env).NODE_ENV = "production" then "info" else "debug")

/-- The transport-free console configuration `getLoggerConfig` falls back to
on validation failure: the production config in production, the base config
otherwise. -/
def consoleFallbackConfig (env : Env) : LoggerOptions :=
  if (getEnvConfig env).NODE_ENV = "production" then
    createProductionConfig (createBaseConfig (factoryLogLevel env))
  else createBaseConfig (factoryLogLevel env)

/-- The restricted directories named by the specification (Unix ones). -/
def unixRestrictedDirs : List String :=
  ["/etc", "/usr", "/bin", "/boot", "/dev", "/proc", "/sys", "/root"]

/-- The sensitive field names covered by `REDACTED_PATHS`. -/
def sensitiveNames : List String :=
  ["password", "token", "secret", "authorization", "api_key", "apiKey"]

/-! ## Theorems -/

theorem listPrefix_refl : ∀ l : List Char, listPrefix l l = true := by
  intro l
  induction l with
  | nil => rfl
  | cons a as ih => simp [listPrefix, ih]

theorem listPrefix_append : ∀ l m : List Char, listPrefix l (l ++ m) = true := by
  intro l
  induction l with
  | nil => intro m; rfl
  | cons a as ih => intro m; simp [listPrefix, ih]

theorem listPrefix_trans :
    ∀ a b c : List Char, listPrefix a b = true → listPrefix b c = true →
      listPrefix a c = true := by
  intro a
  induction a with
  | nil => intros; rfl
  | cons x xs ih =>
    intro b c hab hbc
    match b, c with
    | [], _ => simp [listPrefix] at hab
    | y :: ys, [] => simp [listPrefix] at hbc
    | y :: ys, z :: zs =>
      simp [listPrefix] at hab hbc ⊢
      obtain ⟨hxy, hab'⟩ := hab
      obtain ⟨hyz, hbc'⟩ := hbc
      exact ⟨hxy.trans hyz, ih ys zs hab' hbc'⟩

/-! ### Evaluation checks on concrete inputs -/

example : normalize "/etc/passwd" = "/etc/passwd" := by decide

example : normalize "a/../b" = "b" := by decide

example : normalize "/../etc" = "/etc" := by decide

example : normalize "./logs/app.log" = "logs/app.log" := by decide

example : normalize "" = "." := by decide

example : validateLogPath "/etc/passwd" = .error .restrictedDir := rfl

example : validateLogPath "../x" = .error .parentDirRef := rfl

example : validateLogPath "./logs/app.log" = .ok () := rfl

example : validateLogPath "/var/log/app.log" = .ok () := rfl

example : isIP "127.0.0.1" = 4 := rfl

example : isIP "300.0.0.1" = 0 := rfl

example : isIP "01.2.3.4" = 0 := rfl

example : isIP "::1" = 6 := rfl

example : isIP "::" = 6 := rfl

example : isIP "fe80::1" = 6 := rfl

example : isIP "2001:db8:0:1:1:1:1:1" = 6 := rfl

example : isIP "1:2:3:4:5:6:7:8:9" = 0 := rfl

example : isIP "::ffff:192.168.0.1" = 6 := rfl

example : isIP "localhost" = 0 := rfl

example : isIP "" = 0 := rfl

example : validateFileMode .undef = ⟨0o640, false, false⟩ := by decide

example : validateFileMode (.str "0640") = ⟨0o640, false, true⟩ := by decide

example : validateFileMode (.str "640") = ⟨0o640, false, true⟩ := by decide

example : validateFileMode (.str "0600") = ⟨0o600, false, false⟩ := by decide

example : validateFileMode (.str "zzz") = ⟨0o640, true, false⟩ := by decide

example : validateFileMode (.str "1777") = ⟨0o640, true, false⟩ := by decide

example : validateFileMode (.str "-5") = ⟨0o640, true, false⟩ := by decide

example : validateFileMode (.str "666") = ⟨0o666, false, true⟩ := by decide

example : validateFileMode (.num 511) = ⟨511, false, true⟩ := by decide

example : parseSizeToBytes (some "10M") = some (10 * 1024 * 1024) := rfl

example : parseSizeToBytes (some "1.5K") = some 1536 := rfl

example : parseSizeToBytes (some "512") = some 512 := rfl

example : parseSizeToBytes (some "10 GB") = some (10 * 1024 * 1024 * 1024) := rfl

example : parseSizeToBytes (some "junk") = none := rfl

example : parseSizeToBytes none = none := rfl

example :
    (getLoggerConfig {} none true).1 =
      { createBaseConfig "debug" with
          transport := some (.pinoPretty true "pid,hostname" "HH:MM:ss.l" false) } := rfl

example :
    (getLoggerConfig { LOG_FILE_PATH := some "/etc/passwd" } (some "file") true).1 =
      createBaseConfig "debug" := rfl

example :
    (getLoggerConfig { LOG_FILE_PATH := some "/etc/passwd" } (some "file") true).2 =
      [.pathValidationRun "/etc/passwd", .diagInvalid "log file path",
       .diagFallback] := rfl

example :
    (getLoggerConfig { NODE_ENV := some "test", LOG_FILE_PATH := some "/etc/passwd" }
        (some "file") true).1 =
      { createBaseConfig "debug" with level := "silent" } := rfl

example :
    (getLoggerConfig { LOG_SYSLOG_PORT := some "70000" } (some "syslog") true).1 =
      createBaseConfig "debug" := rfl

example :
    (getLoggerConfig { NODE_ENV := some "production" } (some "syslog") true).1 =
      { createProductionConfig (createBaseConfig "info") with
          timestamp := TsFmt.epochTime,
          transport := some (.pinoSyslog "localhost" 514 "udp"
            "agentic-node-ts-starter") } := by decide

example :
    applyRedact [] (.fld "password" (.atom "x") (.fld "msg" (.atom "hi") .onil)) =
      .fld "msg" (.atom "hi") .onil := by decide

example :
    applyRedact [] (.fld "user" (.fld "token" (.atom "t") .onil) .onil) =
      .fld "user" .onil .onil := by decide

example :
    applyRedact []
        (.fld "a" (.fld "b" (.fld "password" (.atom "x") .onil) .onil) .onil) =
      .fld "a" (.fld "b" (.fld "password" (.atom "x") .onil) .onil) .onil := by decide

example : isIso8601 (toISOString ⟨2026, 10, 12, 1, 2, 3, 45⟩) = true := by decide

example : toISOString ⟨2026, 10, 12, 1, 2, 3, 45⟩ = "2026-10-12T01:02:03.045Z" := by decide

/-- Claim C5. `validateFileMode` is total: every input yields a mode in
`[0, 0o777]` (and, being a Lean function, never raises); an absent input
returns the default `0o640` without a warning, and an unparsable, negative,
or too-large input returns the default with the fallback warning. -/
theorem validateFileMode_total_and_defaults (inp : FileModeInput) :
    0 ≤ (validateFileMode inp).mode ∧
    (validateFileMode inp).mode ≤ MAX_FILE_MODE ∧
    (inp = .undef → validateFileMode inp = ⟨DEFAULT_FILE_MODE, false, false⟩) ∧
    (∀ s, inp = .str s → parseIntOctal s = none →
      validateFileMode inp = ⟨DEFAULT_FILE_MODE, true, false⟩) ∧
    (∀ s m, inp = .str s → parseIntOctal s = some m →
      (m < 0 ∨ m > MAX_FILE_MODE) →
      validateFileMode inp = ⟨DEFAULT_FILE_MODE, true, false⟩) ∧
    (∀ n, inp = .num n → (n < 0 ∨ n > MAX_FILE_MODE) →
      validateFileMode inp = ⟨DEFAULT_FILE_MODE, true, false⟩) := by
  have hrange : ∀ j : JsNumber, 0 ≤ (resolveNumericMode j).mode ∧
      (resolveNumericMode j).mode ≤ MAX_FILE_MODE := by
    intro j
    cases j with
    | none => exact ⟨by decide, by decide⟩
    | some n =>
      by_cases h : n < 0 ∨ n > MAX_FILE_MODE
      · simp only [resolveNumericMode, if_pos h]
        exact ⟨by decide, by decide⟩
      · simp only [resolveNumericMode, if_neg h]
        simp only [MAX_FILE_MODE] at h ⊢
        omega
  cases inp with
  | undef =>
    refine ⟨by decide, by decide, fun _ => rfl, ?_, ?_, ?_⟩
    · intro s hs; exact FileModeInput.noConfusion hs
    · intro s m hs; exact FileModeInput.noConfusion hs
    · intro n hn; exact FileModeInput.noConfusion hn
  | num n =>
    refine ⟨(hrange (some n)).1, (hrange (some n)).2, ?_, ?_, ?_, ?_⟩
    · intro h; exact FileModeInput.noConfusion h
    · intro s hs; exact FileModeInput.noConfusion hs
    · intro s m hs; exact FileModeInput.noConfusion hs
    · intro n' hn' hr
      injection hn' with he
      subst he
      show resolveNumericMode (some n) = _
      simp only [resolveNumericMode, if_pos hr]
  | str s =>
    refine ⟨(hrange (parseIntOctal s)).1, (hrange (parseIntOctal s)).2, ?_, ?_, ?_, ?_⟩
    · intro h; exact FileModeInput.noConfusion h
    · intro s' hs' hparse
      injection hs' with he
      subst he
      show resolveNumericMode (parseIntOctal s) = _
      rw [hparse]
      rfl
    · intro s' m hs' hparse hr
      injection hs' with he
      subst he
      show resolveNumericMode (parseIntOctal s) = _
      rw [hparse]
      simp only [resolveNumericMode, if_pos hr]
    · intro n hn; exact FileModeInput.noConfusion hn

/-- Witness for C5 at concrete inputs: an unparsable string, an absent
input, and an out-of-range numeric mode. -/
theorem validateFileMode_total_and_defaults_witness :
    validateFileMode (.str "zzz") = ⟨DEFAULT_FILE_MODE, true, false⟩ ∧
    validateFileMode .undef = ⟨DEFAULT_FILE_MODE, false, false⟩ ∧
    validateFileMode (.num 5000) = ⟨DEFAULT_FILE_MODE, true, false⟩ :=
  ⟨(validateFileMode_total_and_defaults (.str "zzz")).2.2.2.1 "zzz" rfl (by decide),
   (validateFileMode_total_and_defaults .undef).2.2.1 rfl,
   (validateFileMode_total_and_defaults (.num 5000)).2.2.2.2.2 5000 rfl (by decide)⟩

/-- Claim C6. Switching twice in a row to the same mode is idempotent: the
second call leaves the state (mode, tracked stream, active configuration)
unchanged and emits only the debug note — no stream close, no logger
construction. -/
theorem switchLogOutput_idempotent (env : Env) (mkdirOk : Bool)
    (s : SwitcherState) (mode : String) :
    switchLogOutput env mkdirOk (switchLogOutput env mkdirOk s mode).1 mode =
      ((switchLogOutput env mkdirOk s mode).1, [.debugAlready mode]) := by
  by_cases h : s.currentOutputMode = some mode
  · simp [switchLogOutput, h]
  · simp [switchLogOutput, h]

/-- Claim C8. Any syntactically valid IPv4/IPv6 literal is accepted by
`validateSyslogHost` (with no warning), regardless of the hostname length
and RFC 1123 format rules: the IP check is decided first. -/
theorem validateSyslogHost_accepts_ip (nodeEnv : Option String) (host : String)
    (h : isIP host ≠ 0) :
    validateSyslogHost nodeEnv host = (.ok (), []) := by
  have hne : host ≠ "" := by
    intro he
    subst he
    exact h (by decide)
  simp [validateSyslogHost, hne, h]

/-- Witness for C8: `"::1"` is an IPv6 literal that violates the RFC 1123
hostname format, yet is accepted even in production mode. -/
theorem validateSyslogHost_accepts_ip_witness :
    isIP "::1" ≠ 0 ∧ hostnameOk "::1" = false ∧
    validateSyslogHost (some "production") "::1" = (.ok (), []) :=
  ⟨by decide, by decide, validateSyslogHost_accepts_ip (some "production") "::1" (by decide)⟩

/-- Claim C10. In test mode the factory returns the test configuration before
any output-mode dispatch, for every requested mode: no transport, no
validation executed, no directory creation attempted, no diagnostics, and
the level is `LOG_LEVEL` if set, else `silent`. -/
theorem getLoggerConfig_testMode (env : Env) (outputMode : Option String)
    (mkdirOk : Bool) (h : jsOr env.NODE_ENV "development" = "test") :
    getLoggerConfig env outputMode mkdirOk =
      (createTestConfig env (createBaseConfig (jsOr env.LOG_LEVEL "debug")), []) ∧
    (getLoggerConfig env outputMode mkdirOk).1.transport = none ∧
    (getLoggerConfig env outputMode mkdirOk).1.level = jsOr env.LOG_LEVEL "silent" ∧
    (getLoggerConfig env outputMode mkdirOk).2 = [] := by
  have hc : (getEnvConfig env).NODE_ENV = "test" := h
  refine ⟨?_, ?_, ?_, ?_⟩ <;>
    simp [getLoggerConfig, hc, createTestConfig, createBaseConfig, getEnvConfig, h]

/-- Witness for C10: test mode with a requested `file` output and an invalid
configured path still yields the plain test configuration with no events. -/
theorem getLoggerConfig_testMode_witness :
    getLoggerConfig { NODE_ENV := some "test", LOG_FILE_PATH := some "/etc/passwd" }
        (some "file") true =
      ({ createBaseConfig "debug" with level := "silent" }, []) := by
  have h := getLoggerConfig_testMode
    { NODE_ENV := some "test", LOG_FILE_PATH := some "/etc/passwd" }
    (some "file") true (by decide)
  exact h.1.trans (by decide)

theorem digitChar_isDigit_of_lt (k : Nat) (h : k < 10) :
    (Nat.digitChar k).isDigit = true := by
  interval_cases k <;> decide

theorem digitChar_mod_isDigit (n : Nat) :
    (Nat.digitChar (n % 10)).isDigit = true :=
  digitChar_isDigit_of_lt (n % 10) (Nat.mod_lt n (by norm_num))

/-- The `toISOString` always renders in the `YYYY-MM-DDTHH:mm:ss.sssZ` shape
checked by the repository's tests. -/
theorem isIso8601_toISOString (d : DateParts) :
    isIso8601 (toISOString d) = true := by
  simp [toISOString, isIso8601, pad4, pad3, pad2, digitChar_mod_isDigit]

/-- Claim C9. The health endpoint returns HTTP 200, content type
`application/json`, and a body with `status = "healthy"`, an ISO-8601
timestamp, the application name, the package version (`"unknown"` when
absent), the uptime passed through unchanged, and the environment string.
The handler's inputs are only the environment, clock, and uptime — no
logger state. -/
theorem healthGET_spec (env : HealthEnv) (now : DateParts) (uptime : ℚ) :
    (healthGET env now uptime).httpStatus = 200 ∧
    (healthGET env now uptime).contentType = "application/json" ∧
    (healthGET env now uptime).body.status = "healthy" ∧
    isIso8601 (healthGET env now uptime).body.timestamp = true ∧
    (healthGET env now uptime).body.application =
      jsOr env.NEXT_PUBLIC_APP_NAME "agentic-nextjs-ts-starter" ∧
    (healthGET env now uptime).body.version =
      jsOr env.npm_package_version "unknown" ∧
    (env.npm_package_version = none →
      (healthGET env now uptime).body.version = "unknown") ∧
    (healthGET env now uptime).body.uptime = uptime ∧
    (healthGET env now uptime).body.environment = jsOr env.NODE_ENV "development" := by
  refine ⟨rfl, rfl, rfl, isIso8601_toISOString now, rfl, rfl, ?_, rfl, rfl⟩
  intro h
  simp [healthGET, nextResponseJson, h, jsOr]

/-- Witness for C9 (mocked uptime 123.45, as in the repository's tests). -/
theorem healthGET_spec_witness :
    (healthGET {} ⟨2026, 10, 12, 1, 2, 3, 45⟩ (2469 / 20 : ℚ)).httpStatus = 200 ∧
    (healthGET {} ⟨2026, 10, 12, 1, 2, 3, 45⟩ (2469 / 20 : ℚ)).body.status = "healthy" ∧
    (healthGET {} ⟨2026, 10, 12, 1, 2, 3, 45⟩ (2469 / 20 : ℚ)).body.uptime =
      (2469 / 20 : ℚ) ∧
    (healthGET {} ⟨2026, 10, 12, 1, 2, 3, 45⟩ (2469 / 20 : ℚ)).body.version = "unknown" := by
  have h := healthGET_spec {} ⟨2026, 10, 12, 1, 2, 3, 45⟩ (2469 / 20 : ℚ)
  exact ⟨h.1, h.2.2.1, h.2.2.2.2.2.2.2.1, h.2.2.2.2.2.2.1 rfl⟩

/-! ### Redaction lemmas (C2) -/

theorem redactPatterns_eq :
    REDACT_PATTERNS =
      [["password"], ["token"], ["secret"], ["authorization"], ["api_key"],
       ["apiKey"], ["*", "password"], ["*", "token"], ["*", "secret"],
       ["*", "authorization"], ["*", "api_key"], ["*", "apiKey"]] := by decide

theorem matchedAny_single (n : String) (hn : n ∈ sensitiveNames) :
    matchedAny [n] = true := by
  fin_cases hn <;> decide

theorem matchedAny_pair (k n : String) (hn : n ∈ sensitiveNames) :
    matchedAny [k, n] = true := by
  fin_cases hn <;>
    simp [matchedAny, redactPatterns_eq, patMatches, segMatches]

theorem lookupField_applyRedact (p : List String) (k : String) (v : JsonVal) :
    lookupField k (applyRedact p v) =
      if matchedAny (p ++ [k]) = true then none
      else (lookupField k v).map (applyRedact (p ++ [k])) := by
  induction v with
  | atom s => simp [applyRedact, lookupField]
  | onil => simp [applyRedact, lookupField]
  | fld k' v rest ihv ihrest =>
    by_cases hm : matchedAny (p ++ [k']) = true
    · rw [applyRedact, if_pos hm, ihrest]
      by_cases hk : k' = k
      · subst hk
        simp [lookupField, hm]
      · simp [lookupField, hk]
    · rw [applyRedact, if_neg hm]
      by_cases hk : k' = k
      · subst hk
        simp [lookupField, hm]
      · simp [lookupField, hk, ihrest]

theorem lookupPath_single_redacted (v : JsonVal) (n : String)
    (hn : n ∈ sensitiveNames) :
    lookupPath [n] (applyRedact [] v) = none := by
  rw [lookupPath, lookupField_applyRedact]
  simp [matchedAny_single n hn]

theorem lookupPath_pair_redacted (v : JsonVal) (k n : String)
    (hn : n ∈ sensitiveNames) :
    lookupPath [k, n] (applyRedact [] v) = none := by
  rw [lookupPath, lookupField_applyRedact]
  by_cases hk : matchedAny [k] = true
  · simp [hk]
  · simp only [List.nil_append, hk, if_false]
    cases hv : lookupField k v with
    | none => simp
    | some v1 =>
      simp only [hv, Option.map]
      show lookupPath [n] (applyRedact ([] ++ [k]) v1) = none
      rw [lookupPath, lookupField_applyRedact]
      simp [matchedAny_pair k n hn]

/-- Invariants of every configuration produced by `getLoggerConfig`: the
fixed redaction rule set with `remove: true` is always attached, and the
severity level is `LOG_LEVEL || 'silent'` in test mode, `'silent'` in null
mode, and `LOG_LEVEL || (production ? 'info' : 'debug')` otherwise. -/
theorem getLoggerConfig_invariants (env : Env) (outputMode : Option String)
    (mkdirOk : Bool) :
    (getLoggerConfig env outputMode mkdirOk).1.redactPaths = REDACTED_PATHS ∧
    (getLoggerConfig env outputMode mkdirOk).1.redactRemove = true ∧
    (jsOr env.NODE_ENV "development" = "test" →
      (getLoggerConfig env outputMode mkdirOk).1.level = jsOr env.LOG_LEVEL "silent") ∧
    (jsOr env.NODE_ENV "development" ≠ "test" →
      jsOr outputMode (getEffectiveLogOutput env) = "null" →
      (getLoggerConfig env outputMode mkdirOk).1.level = "silent") ∧
    (jsOr env.NODE_ENV "development" ≠ "test" →
      jsOr outputMode (getEffectiveLogOutput env) ≠ "null" →
      (getLoggerConfig env outputMode mkdirOk).1.level = factoryLogLevel env) := by
  have hNE : (getEnvConfig env).NODE_ENV = jsOr env.NODE_ENV "development" := rfl
  by_cases ht : jsOr env.NODE_ENV "development" = "test"
  · have ht' : (getEnvConfig env).NODE_ENV = "test" := by rw [hNE, ht]
    refine ⟨?_, ?_, fun _ => ?_, fun hc _ => absurd ht hc, fun hc _ => absurd ht hc⟩ <;>
      simp [getLoggerConfig, ht', createTestConfig, createBaseConfig]
  · have ht' : ¬ (getEnvConfig env).NODE_ENV = "test" := by rw [hNE]; exact ht
    by_cases hnull : jsOr outputMode (getEffectiveLogOutput env) = "null"
    · refine ⟨?_, ?_, fun hc => absurd hc ht, fun _ _ => ?_, fun _ hc => absurd hnull hc⟩ <;>
        simp [getLoggerConfig, ht', hnull, createNullConfig, createBaseConfig]
    · by_cases hfile : jsOr outputMode (getEffectiveLogOutput env) = "file"
      · rcases hv : validateLogPath (jsOr (getEnvConfig env).LOG_FILE_PATH
            DEFAULT_LOG_FILE_PATH) with e | u
        · refine ⟨?_, ?_, fun hc => absurd hc ht, fun _ hc => absurd hc hnull,
            fun _ _ => ?_⟩ <;>
            simp [getLoggerConfig, ht', hnull, hfile, createFileConfig, hv,
              createProductionConfig, createBaseConfig, factoryLogLevel] <;>
            split_ifs <;> rfl
        · refine ⟨?_, ?_, fun hc => absurd hc ht, fun _ hc => absurd hc hnull,
            fun _ _ => ?_⟩ <;>
            simp [getLoggerConfig, ht', hnull, hfile, createFileConfig, hv,
              createProductionConfig, createBaseConfig, factoryLogLevel] <;>
            split_ifs <;> rfl
      · by_cases hsys : jsOr outputMode (getEffectiveLogOutput env) = "syslog"
        · rcases hh : (validateSyslogHost env.NODE_ENV
              (jsOr (getEnvConfig env).LOG_SYSLOG_HOST "localhost")).1 with e | u
          · refine ⟨?_, ?_, fun hc => absurd hc ht, fun _ hc => absurd hc hnull,
              fun _ _ => ?_⟩ <;>
              simp [getLoggerConfig, ht', hnull, hfile, hsys, createSyslogConfig, hh,
                createProductionConfig, createBaseConfig, factoryLogLevel] <;>
              split_ifs <;> rfl
          · rcases hp : (validateSyslogPort env.NODE_ENV
                (getEnvConfig env).LOG_SYSLOG_PORT).1 with e | u
            · refine ⟨?_, ?_, fun hc => absurd hc ht, fun _ hc => absurd hc hnull,
                fun _ _ => ?_⟩ <;>
                simp [getLoggerConfig, ht', hnull, hfile, hsys, createSyslogConfig, hh, hp,
                  createProductionConfig, createBaseConfig, factoryLogLevel] <;>
                split_ifs <;> rfl
            · refine ⟨?_, ?_, fun hc => absurd hc ht, fun _ hc => absurd hc hnull,
                fun _ _ => ?_⟩ <;>
                simp [getLoggerConfig, ht', hnull, hfile, hsys, createSyslogConfig, hh, hp,
                  createProductionConfig, createBaseConfig, factoryLogLevel] <;>
                split_ifs <;> rfl
        · by_cases herr : jsOr outputMode (getEffectiveLogOutput env) = "stderr"
          · refine ⟨?_, ?_, fun hc => absurd hc ht, fun _ hc => absurd hc hnull,
              fun _ _ => ?_⟩ <;>
              simp [getLoggerConfig, ht', hnull, hfile, hsys, herr,
                createProductionConfig, createBaseConfig, factoryLogLevel] <;>
              split_ifs <;> rfl
          · refine ⟨?_, ?_, fun hc => absurd hc ht, fun _ hc => absurd hc hnull,
              fun _ _ => ?_⟩ <;>
              simp [getLoggerConfig, ht', hnull, hfile, hsys, herr, createStdoutConfig,
                createProductionConfig, createBaseConfig, factoryLogLevel] <;>
              split_ifs <;> rfl

/-- Claim C2, counterexample. The claim says sensitive fields are removed at
*any* nesting depth; but the rule set only has top-level and one-wildcard
paths, so a `password` field nested three levels deep survives redaction
unchanged. -/
theorem redaction_depth_three_counterexample :
    (getLoggerConfig {} none true).1.redactPaths = REDACTED_PATHS ∧
    (getLoggerConfig {} none true).1.redactRemove = true ∧
    applyRedact []
        (.fld "a" (.fld "b" (.fld "password" (.atom "hunter2") .onil) .onil) .onil) =
      .fld "a" (.fld "b" (.fld "password" (.atom "hunter2") .onil) .onil) .onil ∧
    lookupPath ["a", "b", "password"]
        (applyRedact []
          (.fld "a" (.fld "b" (.fld "password" (.atom "hunter2") .onil) .onil) .onil)) =
      some (.atom "hunter2") := by decide

/-- Claim C2, amended. Every configuration produced by the factory carries the
fixed redaction rule set with `remove: true`, and that rule set removes the
values of the sensitive field names at the top level and at one level of
nesting (depths one and two) of every logged object — not at arbitrary
depth. -/
theorem redaction_removes_sensitive_fields (env : Env) (outputMode : Option String)
    (mkdirOk : Bool) (v : JsonVal) (k n : String) (hn : n ∈ sensitiveNames) :
    (getLoggerConfig env outputMode mkdirOk).1.redactPaths = REDACTED_PATHS ∧
    (getLoggerConfig env outputMode mkdirOk).1.redactRemove = true ∧
    lookupPath [n] (applyRedact [] v) = none ∧
    lookupPath [k, n] (applyRedact [] v) = none :=
  ⟨(getLoggerConfig_invariants env outputMode mkdirOk).1,
   (getLoggerConfig_invariants env outputMode mkdirOk).2.1,
   lookupPath_single_redacted v n hn,
   lookupPath_pair_redacted v k n hn⟩

/-- Witness for amended C2: a `password` at the top level and a `token` one
level down are removed from a concrete record. -/
theorem redaction_removes_sensitive_fields_witness :
    lookupPath ["password"]
        (applyRedact []
          (.fld "password" (.atom "x") (.fld "user" (.fld "token" (.atom "t") .onil) .onil))) =
      none ∧
    lookupPath ["user", "token"]
        (applyRedact []
          (.fld "password" (.atom "x") (.fld "user" (.fld "token" (.atom "t") .onil) .onil))) =
      none := by
  have h1 := redaction_removes_sensitive_fields {} none true
    (.fld "password" (.atom "x") (.fld "user" (.fld "token" (.atom "t") .onil) .onil))
    "user" "password" (by decide)
  have h2 := redaction_removes_sensitive_fields {} none true
    (.fld "password" (.atom "x") (.fld "user" (.fld "token" (.atom "t") .onil) .onil))
    "user" "token" (by decide)
  exact ⟨h1.2.2.1, h2.2.2.2⟩

/-- Claim C7, counterexample. The claim says the level is forced to a silent
level whenever the runtime mode is `test`; but an explicit `LOG_LEVEL`
overrides it: with `NODE_ENV=test, LOG_LEVEL=info` the configured level is
`info`. -/
theorem testMode_level_not_forced_silent :
    (getLoggerConfig { NODE_ENV := some "test", LOG_LEVEL := some "info" }
        none true).1.level = "info" ∧ ("info" : String) ≠ "silent" := by decide

/-- Claim C7, amended. The factory's severity level is the explicit
`LOG_LEVEL` override if present, else `info` in production and `debug`
otherwise; in test mode the level is `LOG_LEVEL` if set and only forced to
`silent` when no override is present (and the `null` output mode also forces
`silent`).  With `LOG_OUTPUT`, `NODE_ENV` and `LOG_LEVEL` unset the
effective output resolves to `stdout` with level `debug`. -/
theorem getLoggerConfig_level_spec (env : Env) (outputMode : Option String)
    (mkdirOk : Bool) :
    (jsOr env.NODE_ENV "development" = "test" →
      (getLoggerConfig env outputMode mkdirOk).1.level = jsOr env.LOG_LEVEL "silent") ∧
    (jsOr env.NODE_ENV "development" ≠ "test" →
      jsOr outputMode (getEffectiveLogOutput env) ≠ "null" →
      (getLoggerConfig env outputMode mkdirOk).1.level =
        jsOr env.LOG_LEVEL
          (if jsOr env.NODE_ENV "development" = "production" then "info" else "debug")) ∧
    (env.NODE_ENV = none → env.LOG_OUTPUT = none → env.LOG_LEVEL = none →
      outputMode = none →
      getEffectiveLogOutput env = "stdout" ∧
      (getLoggerConfig env outputMode mkdirOk).1.level = "debug") := by
  have hinv := getLoggerConfig_invariants env outputMode mkdirOk
  have hfact : factoryLogLevel env =
      jsOr env.LOG_LEVEL
        (if jsOr env.NODE_ENV "development" = "production" then "info" else "debug") := rfl
  refine ⟨hinv.2.2.1, fun ht hn => (hinv.2.2.2.2 ht hn).trans hfact, ?_⟩
  intro h1 h2 h3 h4
  subst h4
  constructor
  · simp [getEffectiveLogOutput, getEnvConfig, h2, jsOr]
  · have ht : jsOr env.NODE_ENV "development" ≠ "test" := by
      simp [h1, jsOr]
    have hn : jsOr (none : Option String) (getEffectiveLogOutput env) ≠ "null" := by
      simp [getEffectiveLogOutput, getEnvConfig, h2, jsOr]
    have := (hinv.2.2.2.2 ht hn).trans hfact
    rw [this]
    simp [h1, h3, jsOr]

/-- Witness for amended C7: production override, the unset-everything
scenario, and the test-mode default, at concrete environments. -/
theorem getLoggerConfig_level_spec_witness :
    (getLoggerConfig { NODE_ENV := some "production" } none true).1.level = "info" ∧
    (getLoggerConfig {} none true).1.level = "debug" ∧
    getEffectiveLogOutput {} = "stdout" ∧
    (getLoggerConfig { NODE_ENV := some "test" } (some "file") true).1.level = "silent" := by
  have hprod := (getLoggerConfig_level_spec { NODE_ENV := some "production" } none true).2.1
    (by decide) (by decide)
  have hdef := (getLoggerConfig_level_spec {} none true).2.2 rfl rfl rfl rfl
  have htest := (getLoggerConfig_level_spec { NODE_ENV := some "test" } (some "file") true).1
    (by decide)
  exact ⟨hprod.trans (by decide), hdef.2, hdef.1, htest.trans (by decide)⟩

theorem isErr_ite_error {c : Prop} [Decidable c] (e1 e2 : PathError) :
    isErr (if c then Except.error e1 else Except.error e2 : Except PathError Unit) = true := by
  split_ifs <;> rfl

theorem unixRestricted_props :
    ∀ r ∈ unixRestrictedDirs,
      r ∈ restrictedPaths ∧ normalize r = r ∧ listPrefix ['/'] r.data = true := by
  decide

/-- If some restricted directory is a prefix of the (already absolute)
normalized path, `validateLogPath` fails. -/
theorem validateLogPath_restricted_of (p r : String)
    (hmem : r ∈ restrictedPaths) (hnr : normalize r = r)
    (hsl : listPrefix ['/'] r.data = true)
    (hpre : listPrefix r.data (normalize p).data = true) :
    isErr (validateLogPath p) = true := by
  have habs : listPrefix ['/'] (normalize p).data = true :=
    listPrefix_trans _ _ _ hsl hpre
  have hne : p ≠ "" := by
    rintro rfl
    rw [show normalize "" = "." from rfl] at habs
    exact absurd habs (by decide)
  have hany : restrictedPaths.any
      (fun rr => strStartsWith (normalize rr) (normalize p)) = true := by
    rw [List.any_eq_true]
    refine ⟨r, hmem, ?_⟩
    rw [hnr]
    exact hpre
  by_cases hdd : strIncludes ".." p = true
  · simp [validateLogPath, hne, hdd, isErr]
  · simp [validateLogPath, hne, hdd, isAbsolute, habs, hany, isErr]

/-- Claim C4. `validateLogPath` fails with the parent-directory error on every
path containing `..`; it fails on every path whose normalized form lies
under one of the restricted system directories; and it fails on empty paths,
paths containing a null byte, and paths longer than `MAX_PATH_LENGTH`. -/
theorem validateLogPath_rejects (p : String) :
    (strIncludes ".." p = true → validateLogPath p = .error .parentDirRef) ∧
    ((∃ r ∈ unixRestrictedDirs,
        normalize p = r ∨ strStartsWith (r ++ "/") (normalize p) = true) →
      isErr (validateLogPath p) = true) ∧
    (p = "" → validateLogPath p = .error .emptyPath) ∧
    (strIncludes nullStr p = true → isErr (validateLogPath p) = true) ∧
    (p.length > MAX_PATH_LENGTH → isErr (validateLogPath p) = true) := by
  refine ⟨?_, ?_, ?_, ?_, ?_⟩
  · intro h
    have hne : p ≠ "" := by
      rintro rfl
      exact absurd h (by decide)
    simp [validateLogPath, hne, h]
  · rintro ⟨r, hr, hcase⟩
    obtain ⟨hmem, hnr, hsl⟩ := unixRestricted_props r hr
    have hpre : listPrefix r.data (normalize p).data = true := by
      rcases hcase with he | hpf
      · rw [he]
        exact listPrefix_refl _
      · have hd : (r ++ "/").data = r.data ++ ['/'] := by
          rw [String.data_append]
        unfold strStartsWith at hpf
        rw [hd] at hpf
        exact listPrefix_trans _ _ _ (listPrefix_append r.data ['/']) hpf
    exact validateLogPath_restricted_of p r hmem hnr hsl hpre
  · intro h
    simp [validateLogPath, h]
  · intro h
    have hne : p ≠ "" := by
      rintro rfl
      exact absurd h (by decide)
    rw [validateLogPath]
    split_ifs <;> first | rfl | exact isErr_ite_error _ _
  · intro h
    have hne : p ≠ "" := by
      rintro rfl
      exact absurd h (by decide)
    rw [validateLogPath]
    split_ifs <;> first | rfl | exact isErr_ite_error _ _

/-- Witness for C4 at concrete inputs: a traversal path, a path under
`/etc`, the empty path, a path with a null byte, and an over-long path. -/
theorem validateLogPath_rejects_witness :
    validateLogPath "../x" = .error .parentDirRef ∧
    isErr (validateLogPath "/etc/passwd") = true ∧
    validateLogPath "" = .error .emptyPath ∧
    isErr (validateLogPath ⟨'a' :: Char.ofNat 0 :: ['b']⟩) = true ∧
    isErr (validateLogPath ⟨List.replicate 4097 'x'⟩) = true :=
  ⟨(validateLogPath_rejects "../x").1 (by decide),
   (validateLogPath_rejects "/etc/passwd").2.1
     ⟨"/etc", by decide, Or.inr (by decide)⟩,
   (validateLogPath_rejects "").2.2.1 rfl,
   (validateLogPath_rejects ⟨'a' :: Char.ofNat 0 :: ['b']⟩).2.2.2.1 (by decide),
   (validateLogPath_rejects ⟨List.replicate 4097 'x'⟩).2.2.2.2
     (by rw [String.length_mk, List.length_replicate]; decide)⟩

/-- Claim C1. The factory never raises (it is a total function); whenever the
requested mode is `file` and path validation fails, or the requested mode is
`syslog` and host or port validation fails, it returns the transport-free
console configuration for the current runtime mode (production config in
production, base config otherwise) and records the failure as a diagnostic.
(In test mode the dispatch — and hence the validation — never runs.) -/
theorem getLoggerConfig_validation_fallback (env : Env) (outputMode : Option String)
    (mkdirOk : Bool) (hnt : jsOr env.NODE_ENV "development" ≠ "test") :
    (jsOr outputMode (getEffectiveLogOutput env) = "file" →
      isErr (validateLogPath (jsOr env.LOG_FILE_PATH DEFAULT_LOG_FILE_PATH)) = true →
      getLoggerConfig env outputMode mkdirOk =
        (consoleFallbackConfig env,
         [.pathValidationRun (jsOr env.LOG_FILE_PATH DEFAULT_LOG_FILE_PATH),
          .diagInvalid "log file path", .diagFallback]) ∧
      (consoleFallbackConfig env).transport = none) ∧
    (jsOr outputMode (getEffectiveLogOutput env) = "syslog" →
      (isErr (validateSyslogHost env.NODE_ENV
          (jsOr env.LOG_SYSLOG_HOST "localhost")).1 = true ∨
       isErr (validateSyslogPort env.NODE_ENV
          (parsedEnvInt env.LOG_SYSLOG_PORT)).1 = true) →
      (getLoggerConfig env outputMode mkdirOk).1 = consoleFallbackConfig env ∧
      (consoleFallbackConfig env).transport = none ∧
      FEvent.diagInvalid "syslog configuration" ∈
        (getLoggerConfig env outputMode mkdirOk).2) := by
  have ht' : ¬ (getEnvConfig env).NODE_ENV = "test" := hnt
  have htransport : (consoleFallbackConfig env).transport = none := by
    unfold consoleFallbackConfig createProductionConfig createBaseConfig
    split_ifs <;> rfl
  constructor
  · intro hf hverr
    have hnull : jsOr outputMode (getEffectiveLogOutput env) ≠ "null" := by
      rw [hf]; decide
    rcases hv : validateLogPath (jsOr env.LOG_FILE_PATH DEFAULT_LOG_FILE_PATH)
      with e | u
    · refine ⟨?_, htransport⟩
      simp [getLoggerConfig, getEnvConfig, hnt, hf, hnull, createFileConfig, hv,
        consoleFallbackConfig, factoryLogLevel]
    · rw [hv] at hverr
      simp [isErr] at hverr
  · intro hs hdisj
    have hnull : jsOr outputMode (getEffectiveLogOutput env) ≠ "null" := by
      rw [hs]; decide
    have hfile : jsOr outputMode (getEffectiveLogOutput env) ≠ "file" := by
      rw [hs]; decide
    rcases hh : (validateSyslogHost env.NODE_ENV
        (jsOr env.LOG_SYSLOG_HOST "localhost")).1 with eh | uh
    · refine ⟨?_, htransport, ?_⟩ <;>
        simp [getLoggerConfig, getEnvConfig, hnt, hs, hnull, hfile,
          createSyslogConfig, hh, consoleFallbackConfig, factoryLogLevel]
    · have hperr : isErr (validateSyslogPort env.NODE_ENV
          (parsedEnvInt env.LOG_SYSLOG_PORT)).1 = true := by
        rcases hdisj with hherr | hperr
        · rw [hh] at hherr
          simp [isErr] at hherr
        · exact hperr
      rcases hp : (validateSyslogPort env.NODE_ENV
          (parsedEnvInt env.LOG_SYSLOG_PORT)).1 with ep | up
      · refine ⟨?_, htransport, ?_⟩ <;>
          simp [getLoggerConfig, getEnvConfig, hnt, hs, hnull, hfile,
            createSyslogConfig, hh, hp, consoleFallbackConfig, factoryLogLevel]
      · rw [hp] at hperr
        simp [isErr] at hperr

/-- Witness for C1: the spec's two scenarios — `LOG_FILE_PATH=/etc/passwd`
with mode `file`, and `LOG_SYSLOG_PORT=70000` with mode `syslog`. -/
theorem getLoggerConfig_validation_fallback_witness :
    getLoggerConfig { LOG_FILE_PATH := some "/etc/passwd" } (some "file") true =
      (createBaseConfig "debug",
       [.pathValidationRun "/etc/passwd", .diagInvalid "log file path",
        .diagFallback]) ∧
    (getLoggerConfig { LOG_SYSLOG_PORT := some "70000" } (some "syslog") true).1 =
      createBaseConfig "debug" ∧
    FEvent.diagInvalid "syslog configuration" ∈
      (getLoggerConfig { LOG_SYSLOG_PORT := some "70000" } (some "syslog") true).2 := by
  have h1 := (getLoggerConfig_validation_fallback
    { LOG_FILE_PATH := some "/etc/passwd" } (some "file") true (by decide)).1
    (by decide) (by decide)
  have h2 := (getLoggerConfig_validation_fallback
    { LOG_SYSLOG_PORT := some "70000" } (some "syslog") true (by decide)).2
    (by decide) (Or.inr (by decide))
  exact ⟨h1.1.trans (by decide), h2.1.trans (by decide), h2.2.2⟩

/-- Claim C3, code evaluation. After `switchOutput('file')` followed by
`switchOutput('stdout')` from the module-initial state, *no* stream close is
performed (the claim says exactly one): `currentFileStream` is never
assigned when entering `file` mode — no call of `switchLogOutput` ever sets
it to a new stream — so the cleanup's close is unreachable. -/
theorem switch_roundtrip_closes_nothing :
    countCloses (switchLogOutput {} true (initState {} true) "file").2 = 0 ∧
    countCloses (switchLogOutput {} true
        (switchLogOutput {} true (initState {} true) "file").1 "stdout").2 = 0 ∧
    (switchLogOutput {} true (initState {} true) "file").1.currentFileStream = none ∧
    (∀ (env : Env) (mk : Bool) (s : SwitcherState) (m : String),
      (switchLogOutput env mk s m).1.currentFileStream = none ∨
      (switchLogOutput env mk s m).1.currentFileStream = s.currentFileStream) := by
  refine ⟨by decide, by decide, by decide, ?_⟩
  intro env mk s m
  by_cases h : s.currentOutputMode = some m
  · right
    simp [switchLogOutput, h]
  · have hcu : (switchLogOutput env mk s m).1.currentFileStream =
        (cleanupPreviousOutput s.currentOutputMode s.currentFileStream).1 := by
      simp [switchLogOutput, h]
    rw [hcu]
    unfold cleanupPreviousOutput
    split_ifs with hc
    · cases s.currentFileStream with
      | none =>
        left
        rfl
      | some id =>
        left
        rfl
    · right
      rfl

end Starter
